import Mathlib

/-!
# Verification of spaceSIM gravity and Keplerian-orbit utilities

Shallow embedding of `src/js/utils/Gravity.js` and
`src/js/utils/KeplerianOrbit.js` over the real numbers, followed by
theorems settling the specification claims about those modules.

JavaScript numbers are modelled as `ℝ`; `Math.sqrt`, `Math.sin`,
`Math.cos`, `Math.PI` become `Real.sqrt`, `Real.sin`, `Real.cos`,
`Real.pi`; `Math.atan2(y, x)` is modelled as the argument of the complex
number `x + y·i` (the same piecewise-arctangent function that
`Math.atan2` computes). Position/force records `{x, y, z}` become the
structure `Vec3`. An orbital-elements record whose fields may be absent
becomes a structure of `Option ℝ` fields, with JavaScript's destructuring
defaults rendered by `Option.getD`.
-/

/-- A JavaScript `{x, y, z}` record of numbers. -/
@[ext]
structure Vec3 where
  x : ℝ
  y : ℝ
  z : ℝ

/-- Model of JavaScript `Math.atan2 y x`: the argument of `x + y·i`. -/
noncomputable def atan2 (y x : ℝ) : ℝ :=
  Complex.arg ⟨x, y⟩

namespace Gravity

/-- `Gravity.G`: the gravitational constant `6.67430e-11` from `Gravity.js`. -/
noncomputable def G : ℝ := 6.67430e-11

/-- `Gravity.SCALE`: simulation scale factor `1e9` from `Gravity.js` (unused by
the functions below, kept for fidelity to the source object). -/
noncomputable def SCALE : ℝ := 1e9

/-- `Gravity.calculateForce(m1, m2, pos1, pos2)` from `Gravity.js`. -/
noncomputable def calculateForce (m1 m2 : ℝ) (pos1 pos2 : Vec3) : Vec3 :=
  let dx := pos2.x - pos1.x
  let dy := pos2.y - pos1.y
  let dz := pos2.z - pos1.z
  let rSquared := dx * dx + dy * dy + dz * dz
  let r := Real.sqrt rSquared
  if r = 0 then ⟨0, 0, 0⟩
  else
    let F := G * m1 * m2 / rSquared
    ⟨F * dx / r, F * dy / r, F * dz / r⟩

/-- `Gravity.calculateAcceleration(m2, pos1, pos2)` from `Gravity.js`. -/
noncomputable def calculateAcceleration (m2 : ℝ) (pos1 pos2 : Vec3) : Vec3 :=
  let dx := pos2.x - pos1.x
  let dy := pos2.y - pos1.y
  let dz := pos2.z - pos1.z
  let rSquared := dx * dx + dy * dy + dz * dz
  let r := Real.sqrt rSquared
  if r = 0 then ⟨0, 0, 0⟩
  else
    let a := G * m2 / rSquared
    ⟨a * dx / r, a * dy / r, a * dz / r⟩

/-- `Gravity.orbitalVelocity(m, r)` from `Gravity.js`. -/
noncomputable def orbitalVelocity (m r : ℝ) : ℝ :=
  Real.sqrt (G * m / r)

end Gravity

/-- The orbital-elements record accepted by `KeplerianOrbit.getOrbitalPosition`;
every field may be absent (`none`), in which case the destructuring defaults
of the source apply. -/
structure OrbitalElements where
  semiMajorAxis : Option ℝ
  eccentricity : Option ℝ
  inclination : Option ℝ
  longitudeOfAscendingNode : Option ℝ
  argumentOfPeriapsis : Option ℝ
  meanAnomalyAtEpoch : Option ℝ
  orbitalPeriod : Option ℝ

namespace KeplerianOrbit

/-- The Kepler-equation loop of `getOrbitalPosition` (`KeplerianOrbit.js`
lines 35–38): starting from `E = M`, run `E = M + e·sin(E)` exactly six
times. -/
noncomputable def solveKeplerE (M eccentricity : ℝ) : ℝ :=
  (fun E => M + eccentricity * Real.sin E)^[6] M

/-- The remainder of `getOrbitalPosition` after the eccentric anomaly `E`
has been computed (`KeplerianOrbit.js` lines 41–67): true anomaly, radius,
orbital-plane coordinates, and the rotation into 3D space. -/
noncomputable def positionFromE (semiMajorAxis eccentricity inclination
    longitudeOfAscendingNode argumentOfPeriapsis E : ℝ) : Vec3 :=
  let nu := 2 * atan2 (Real.sqrt (1 + eccentricity) * Real.sin (E / 2))
      (Real.sqrt (1 - eccentricity) * Real.cos (E / 2))
  let r := semiMajorAxis * (1 - eccentricity * Real.cos E)
  let xOrb := r * Real.cos nu
  let yOrb := r * Real.sin nu
  let cosO := Real.cos longitudeOfAscendingNode
  let sinO := Real.sin longitudeOfAscendingNode
  let cosI := Real.cos inclination
  let sinI := Real.sin inclination
  let cosW := Real.cos argumentOfPeriapsis
  let sinW := Real.sin argumentOfPeriapsis
  ⟨xOrb * (cosO * cosW - sinO * sinW * cosI) -
      yOrb * (cosO * sinW + sinO * cosW * cosI),
    xOrb * (sinO * cosW + cosO * sinW * cosI) -
      yOrb * (sinO * sinW - cosO * cosW * cosI),
    xOrb * (sinW * sinI) + yOrb * (cosW * sinI)⟩

/-- `KeplerianOrbit.getOrbitalPosition(elements, time)` from
`KeplerianOrbit.js`: destructure the elements with defaults, form the mean
anomaly `M = M0 + 2π·time/T`, solve Kepler's equation, and run the
position pipeline. -/
noncomputable def getOrbitalPosition (elements : OrbitalElements) (time : ℝ) :
    Vec3 :=
  let semiMajorAxis := elements.semiMajorAxis.getD 10
  let eccentricity := elements.eccentricity.getD 0
  let inclination := elements.inclination.getD 0
  let longitudeOfAscendingNode := elements.longitudeOfAscendingNode.getD 0
  let argumentOfPeriapsis := elements.argumentOfPeriapsis.getD 0
  let meanAnomalyAtEpoch := elements.meanAnomalyAtEpoch.getD 0
  let orbitalPeriod := elements.orbitalPeriod.getD 1
  let M := meanAnomalyAtEpoch + 2 * Real.pi * time / orbitalPeriod
  positionFromE semiMajorAxis eccentricity inclination
    longitudeOfAscendingNode argumentOfPeriapsis (solveKeplerE M eccentricity)

/-- `KeplerianOrbit.getOrbitalVelocity(elements, time, mu = 1)` from
`KeplerianOrbit.js`: forward finite difference of the position with the
fixed step `dt = 0.001`; the parameter `mu` (JS default 1) is accepted but
never read. -/
noncomputable def getOrbitalVelocity (elements : OrbitalElements) (time : ℝ)
    (mu : ℝ) : Vec3 :=
  let dt : ℝ := 0.001
  let pos1 := getOrbitalPosition elements time
  let pos2 := getOrbitalPosition elements (time + dt)
  ⟨(pos2.x - pos1.x) / dt, (pos2.y - pos1.y) / dt, (pos2.z - pos1.z) / dt⟩

/-- `KeplerianOrbit.calculatePeriod(a, mu)` from `KeplerianOrbit.js`. -/
noncomputable def calculatePeriod (a mu : ℝ) : ℝ :=
  2 * Real.pi * Real.sqrt (a * a * a / mu)

/-- Replace every field of an elements record by `some` of its effective
value under the destructuring defaults `a=10, e=0, i=0, Ω=0, ω=0, M0=0,
T=1` of `getOrbitalPosition`. -/
def fillDefaults (e : OrbitalElements) : OrbitalElements :=
  ⟨some (e.semiMajorAxis.getD 10), some (e.eccentricity.getD 0),
    some (e.inclination.getD 0), some (e.longitudeOfAscendingNode.getD 0),
    some (e.argumentOfPeriapsis.getD 0), some (e.meanAnomalyAtEpoch.getD 0),
    some (e.orbitalPeriod.getD 1)⟩

end KeplerianOrbit

/-- The square of the distance between distinct `Vec3` points, written as in
the source (`dx*dx + dy*dy + dz*dz`), is strictly positive. -/
lemma sq_dist_pos (p1 p2 : Vec3) (h : p1 ≠ p2) :
    0 < (p2.x - p1.x) * (p2.x - p1.x) + (p2.y - p1.y) * (p2.y - p1.y) +
      (p2.z - p1.z) * (p2.z - p1.z) := by
  by_contra hle
  push_neg at hle
  have h1 : (p2.x - p1.x) * (p2.x - p1.x) = 0 :=
    le_antisymm (by nlinarith [mul_self_nonneg (p2.y - p1.y),
      mul_self_nonneg (p2.z - p1.z)]) (mul_self_nonneg _)
  have h2 : (p2.y - p1.y) * (p2.y - p1.y) = 0 :=
    le_antisymm (by nlinarith [mul_self_nonneg (p2.x - p1.x),
      mul_self_nonneg (p2.z - p1.z)]) (mul_self_nonneg _)
  have h3 : (p2.z - p1.z) * (p2.z - p1.z) = 0 :=
    le_antisymm (by nlinarith [mul_self_nonneg (p2.x - p1.x),
      mul_self_nonneg (p2.y - p1.y)]) (mul_self_nonneg _)
  have hx := mul_self_eq_zero.mp h1
  have hy := mul_self_eq_zero.mp h2
  have hz := mul_self_eq_zero.mp h3
  exact h (by ext <;> linarith)

/-- The gravitational constant of the embedding is positive. -/
lemma G_pos : 0 < Gravity.G := by
  unfold Gravity.G
  norm_num

/-- Claim C1: when the two positions coincide component-wise, both
`calculateForce` and `calculateAcceleration` return exactly the zero
vector; the guarded division branch is never taken. -/
theorem calculateForce_acceleration_zero_on_coincident (m1 m2 : ℝ)
    (p1 p2 : Vec3) (hx : p1.x = p2.x) (hy : p1.y = p2.y) (hz : p1.z = p2.z) :
    Gravity.calculateForce m1 m2 p1 p2 = ⟨0, 0, 0⟩ ∧
    Gravity.calculateAcceleration m2 p1 p2 = ⟨0, 0, 0⟩ := by
  constructor <;>
    simp [Gravity.calculateForce, Gravity.calculateAcceleration, hx, hy, hz]

/-- Witness for C1 at masses 5, 7 and the coincident position (1,2,3). -/
theorem calculateForce_acceleration_zero_on_coincident_witness :
    Gravity.calculateForce 5 7 ⟨1, 2, 3⟩ ⟨1, 2, 3⟩ = ⟨0, 0, 0⟩ ∧
    Gravity.calculateAcceleration 7 ⟨1, 2, 3⟩ ⟨1, 2, 3⟩ = ⟨0, 0, 0⟩ :=
  calculateForce_acceleration_zero_on_coincident 5 7 ⟨1, 2, 3⟩ ⟨1, 2, 3⟩
    rfl rfl rfl

/-- Claim C2: `getOrbitalPosition` forms the mean anomaly
`M = M0 + 2π·time/T` (with no normalization into `[0, 2π)`) and obtains the
eccentric anomaly as exactly the 6-fold iterate of `E ↦ M + e·sin E`
seeded at `E₀ = M`, then feeds it to the rest of the pipeline. -/
theorem getOrbitalPosition_six_iteration_kepler (elements : OrbitalElements)
    (time : ℝ) :
    KeplerianOrbit.getOrbitalPosition elements time =
      KeplerianOrbit.positionFromE (elements.semiMajorAxis.getD 10)
        (elements.eccentricity.getD 0) (elements.inclination.getD 0)
        (elements.longitudeOfAscendingNode.getD 0)
        (elements.argumentOfPeriapsis.getD 0)
        ((fun E => (elements.meanAnomalyAtEpoch.getD 0 +
              2 * Real.pi * time / elements.orbitalPeriod.getD 1) +
            elements.eccentricity.getD 0 * Real.sin E)^[6]
          (elements.meanAnomalyAtEpoch.getD 0 +
            2 * Real.pi * time / elements.orbitalPeriod.getD 1)) := rfl

/-- Claim C3: after the eccentric anomaly `E` is obtained,
`getOrbitalPosition` returns exactly the stated pipeline: true anomaly via
`atan2`, radius `a·(1 − e·cos E)`, orbital-plane coordinates, and the
three-angle rotation into 3D space. -/
theorem getOrbitalPosition_rotation_pipeline (elements : OrbitalElements)
    (time : ℝ) :
    KeplerianOrbit.getOrbitalPosition elements time =
      (let a := elements.semiMajorAxis.getD 10
       let e := elements.eccentricity.getD 0
       let i := elements.inclination.getD 0
       let O := elements.longitudeOfAscendingNode.getD 0
       let w := elements.argumentOfPeriapsis.getD 0
       let M0 := elements.meanAnomalyAtEpoch.getD 0
       let T := elements.orbitalPeriod.getD 1
       let E := KeplerianOrbit.solveKeplerE (M0 + 2 * Real.pi * time / T) e
       let nu := 2 * atan2 (Real.sqrt (1 + e) * Real.sin (E / 2))
           (Real.sqrt (1 - e) * Real.cos (E / 2))
       let r := a * (1 - e * Real.cos E)
       let xOrb := r * Real.cos nu
       let yOrb := r * Real.sin nu
       let cosO := Real.cos O
       let sinO := Real.sin O
       let cosI := Real.cos i
       let sinI := Real.sin i
       let cosW := Real.cos w
       let sinW := Real.sin w
       ⟨xOrb * (cosO * cosW - sinO * sinW * cosI) -
           yOrb * (cosO * sinW + sinO * cosW * cosI),
         xOrb * (sinO * cosW + cosO * sinW * cosI) -
           yOrb * (sinO * sinW - cosO * cosW * cosI),
         xOrb * (sinW * sinI) + yOrb * (cosW * sinI)⟩) := rfl

/-- Claim C9: `calculatePeriod` is exactly Kepler's third law
`T = 2π·sqrt(a³/mu)`, total on all real inputs (no guards). -/
theorem calculatePeriod_keplers_third_law (a mu : ℝ) :
    KeplerianOrbit.calculatePeriod a mu =
      2 * Real.pi * Real.sqrt (a ^ 3 / mu) := by
  unfold KeplerianOrbit.calculatePeriod
  rw [show a * a * a = a ^ 3 by ring]

/-- Claim C6: `getOrbitalVelocity` is exactly the forward finite difference
of `getOrbitalPosition` with fixed step `dt = 0.001`, and the `mu`
parameter has no effect on the result. -/
theorem getOrbitalVelocity_finite_difference_mu_unused
    (elements : OrbitalElements) (time mu mu1 mu2 : ℝ) :
    KeplerianOrbit.getOrbitalVelocity elements time mu =
      ⟨((KeplerianOrbit.getOrbitalPosition elements (time + 0.001)).x -
          (KeplerianOrbit.getOrbitalPosition elements time).x) / 0.001,
        ((KeplerianOrbit.getOrbitalPosition elements (time + 0.001)).y -
          (KeplerianOrbit.getOrbitalPosition elements time).y) / 0.001,
        ((KeplerianOrbit.getOrbitalPosition elements (time + 0.001)).z -
          (KeplerianOrbit.getOrbitalPosition elements time).z) / 0.001⟩ ∧
    KeplerianOrbit.getOrbitalVelocity elements time mu1 =
      KeplerianOrbit.getOrbitalVelocity elements time mu2 :=
  ⟨rfl, rfl⟩

/-- Claim C7: `getOrbitalPosition` behaves exactly as if absent element
fields had the default values `a=10, e=0, i=0, Ω=0, ω=0, M0=0, T=1`
(the record itself is never modified: the embedding is a pure function of
the record). -/
theorem getOrbitalPosition_defaults (elements : OrbitalElements) (time : ℝ) :
    KeplerianOrbit.getOrbitalPosition elements time =
      KeplerianOrbit.getOrbitalPosition
        (KeplerianOrbit.fillDefaults elements) time := rfl

/-- Claim C4: for distinct positions, `calculateForce` returns
`(G·m1·m2/r²)·(d/r)` with `d = pos2 − pos1` and `r = |d|`, and for
positive masses the result is a positive scalar multiple of
`pos2 − pos1`. -/
theorem calculateForce_formula_and_direction (m1 m2 : ℝ) (p1 p2 : Vec3)
    (h : p1 ≠ p2) :
    Gravity.calculateForce m1 m2 p1 p2 =
      ⟨Gravity.G * m1 * m2 /
          Real.sqrt ((p2.x - p1.x) * (p2.x - p1.x) +
            (p2.y - p1.y) * (p2.y - p1.y) +
            (p2.z - p1.z) * (p2.z - p1.z)) ^ 2 *
          ((p2.x - p1.x) /
            Real.sqrt ((p2.x - p1.x) * (p2.x - p1.x) +
              (p2.y - p1.y) * (p2.y - p1.y) +
              (p2.z - p1.z) * (p2.z - p1.z))),
        Gravity.G * m1 * m2 /
          Real.sqrt ((p2.x - p1.x) * (p2.x - p1.x) +
            (p2.y - p1.y) * (p2.y - p1.y) +
            (p2.z - p1.z) * (p2.z - p1.z)) ^ 2 *
          ((p2.y - p1.y) /
            Real.sqrt ((p2.x - p1.x) * (p2.x - p1.x) +
              (p2.y - p1.y) * (p2.y - p1.y) +
              (p2.z - p1.z) * (p2.z - p1.z))),
        Gravity.G * m1 * m2 /
          Real.sqrt ((p2.x - p1.x) * (p2.x - p1.x) +
            (p2.y - p1.y) * (p2.y - p1.y) +
            (p2.z - p1.z) * (p2.z - p1.z)) ^ 2 *
          ((p2.z - p1.z) /
            Real.sqrt ((p2.x - p1.x) * (p2.x - p1.x) +
              (p2.y - p1.y) * (p2.y - p1.y) +
              (p2.z - p1.z) * (p2.z - p1.z)))⟩ ∧
    (0 < m1 → 0 < m2 → ∃ c : ℝ, 0 < c ∧
      Gravity.calculateForce m1 m2 p1 p2 =
        ⟨c * (p2.x - p1.x), c * (p2.y - p1.y), c * (p2.z - p1.z)⟩) := by
  have hR := sq_dist_pos p1 p2 h
  have hrpos : 0 < Real.sqrt ((p2.x - p1.x) * (p2.x - p1.x) +
      (p2.y - p1.y) * (p2.y - p1.y) + (p2.z - p1.z) * (p2.z - p1.z)) :=
    Real.sqrt_pos.mpr hR
  have hsq : Real.sqrt ((p2.x - p1.x) * (p2.x - p1.x) +
      (p2.y - p1.y) * (p2.y - p1.y) + (p2.z - p1.z) * (p2.z - p1.z)) ^ 2 =
      (p2.x - p1.x) * (p2.x - p1.x) + (p2.y - p1.y) * (p2.y - p1.y) +
      (p2.z - p1.z) * (p2.z - p1.z) := Real.sq_sqrt hR.le
  constructor
  · unfold Gravity.calculateForce
    dsimp only
    rw [if_neg (ne_of_gt hrpos), hsq]
    refine Vec3.ext ?_ ?_ ?_ <;> dsimp only <;> ring
  · intro hm1 hm2
    refine ⟨Gravity.G * m1 * m2 /
      ((p2.x - p1.x) * (p2.x - p1.x) + (p2.y - p1.y) * (p2.y - p1.y) +
        (p2.z - p1.z) * (p2.z - p1.z)) /
      Real.sqrt ((p2.x - p1.x) * (p2.x - p1.x) +
        (p2.y - p1.y) * (p2.y - p1.y) + (p2.z - p1.z) * (p2.z - p1.z)),
      div_pos (div_pos (mul_pos (mul_pos G_pos hm1) hm2) hR) hrpos, ?_⟩
    unfold Gravity.calculateForce
    dsimp only
    rw [if_neg (ne_of_gt hrpos)]
    refine Vec3.ext ?_ ?_ ?_ <;> dsimp only <;> ring

/-- Witness for C4 at unit masses, `pos1 = (0,0,0)`, `pos2 = (1,0,0)`. -/
theorem calculateForce_formula_and_direction_witness :
    ∃ c : ℝ, 0 < c ∧
      Gravity.calculateForce 1 1 ⟨0, 0, 0⟩ ⟨1, 0, 0⟩ =
        ⟨c * (1 - 0), c * (0 - 0), c * (0 - 0)⟩ :=
  (calculateForce_formula_and_direction 1 1 ⟨0, 0, 0⟩ ⟨1, 0, 0⟩
    (by simp [Vec3.mk.injEq])).2 (by norm_num) (by norm_num)

/-- Claim C8: for a fixed positive mass, `orbitalVelocity` is strictly
decreasing in the radius over positive radii. -/
theorem orbitalVelocity_strictly_decreasing (m r1 r2 : ℝ) (hm : 0 < m)
    (h1 : 0 < r1) (h12 : r1 < r2) :
    Gravity.orbitalVelocity m r2 < Gravity.orbitalVelocity m r1 := by
  unfold Gravity.orbitalVelocity
  have hG := G_pos
  have h2 : 0 < r2 := h1.trans h12
  apply Real.sqrt_lt_sqrt (by positivity)
  rw [div_lt_div_iff₀ h2 h1]
  nlinarith [mul_pos hG hm]

/-- Witness for C8 at `m = 1`, `r1 = 1`, `r2 = 4`. -/
theorem orbitalVelocity_strictly_decreasing_witness :
    Gravity.orbitalVelocity 1 4 < Gravity.orbitalVelocity 1 1 :=
  orbitalVelocity_strictly_decreasing 1 1 4 (by norm_num) (by norm_num)
    (by norm_num)

/-- Claim C10: Newton's third law as an exact antisymmetry:
`calculateForce m1 m2 p1 p2` is the component-wise negation of
`calculateForce m2 m1 p2 p1`, including the coincident-position case. -/
theorem calculateForce_newton_third_law (m1 m2 : ℝ) (p1 p2 : Vec3) :
    Gravity.calculateForce m1 m2 p1 p2 =
      ⟨-(Gravity.calculateForce m2 m1 p2 p1).x,
        -(Gravity.calculateForce m2 m1 p2 p1).y,
        -(Gravity.calculateForce m2 m1 p2 p1).z⟩ := by
  unfold Gravity.calculateForce
  dsimp only
  rw [show (p1.x - p2.x) * (p1.x - p2.x) + (p1.y - p2.y) * (p1.y - p2.y) +
      (p1.z - p2.z) * (p1.z - p2.z) =
      (p2.x - p1.x) * (p2.x - p1.x) + (p2.y - p1.y) * (p2.y - p1.y) +
      (p2.z - p1.z) * (p2.z - p1.z) by ring]
  split_ifs with hc
  · simp
  · refine Vec3.ext ?_ ?_ ?_ <;> dsimp only <;> ring

/-- The point `(cos θ, sin θ)` on the unit circle, as a complex number, is
nonzero. -/
lemma cos_sin_mk_ne_zero (θ : ℝ) : (⟨Real.cos θ, Real.sin θ⟩ : ℂ) ≠ 0 := by
  intro h0
  have hre : Real.cos θ = 0 := by simpa using congrArg Complex.re h0
  have him : Real.sin θ = 0 := by simpa using congrArg Complex.im h0
  nlinarith [Real.sin_sq_add_cos_sq θ]

/-- The point `(cos θ, sin θ)` on the unit circle has complex absolute
value 1. -/
lemma abs_cos_sin_mk (θ : ℝ) :
    Complex.abs ⟨Real.cos θ, Real.sin θ⟩ = 1 := by
  rw [Complex.abs_apply, Complex.normSq_mk,
    show Real.cos θ * Real.cos θ + Real.sin θ * Real.sin θ = 1 by
      nlinarith [Real.sin_sq_add_cos_sq θ]]
  exact Real.sqrt_one

/-- `atan2 (sin θ) (cos θ)` recovers an angle with the same cosine as `θ`. -/
lemma cos_atan2_unit (θ : ℝ) :
    Real.cos (atan2 (Real.sin θ) (Real.cos θ)) = Real.cos θ := by
  unfold atan2
  rw [Complex.cos_arg (cos_sin_mk_ne_zero θ), abs_cos_sin_mk]
  simp

/-- `atan2 (sin θ) (cos θ)` recovers an angle with the same sine as `θ`. -/
lemma sin_atan2_unit (θ : ℝ) :
    Real.sin (atan2 (Real.sin θ) (Real.cos θ)) = Real.sin θ := by
  unfold atan2
  rw [Complex.sin_arg, abs_cos_sin_mk]
  simp

/-- The true-anomaly angle built from half-angle `atan2` has the cosine of
the full angle. -/
lemma cos_two_atan2_half (E : ℝ) :
    Real.cos (2 * atan2 (Real.sin (E / 2)) (Real.cos (E / 2))) = Real.cos E := by
  rw [Real.cos_two_mul, cos_atan2_unit, ← Real.cos_two_mul,
    show 2 * (E / 2) = E by ring]

/-- The true-anomaly angle built from half-angle `atan2` has the sine of
the full angle. -/
lemma sin_two_atan2_half (E : ℝ) :
    Real.sin (2 * atan2 (Real.sin (E / 2)) (Real.cos (E / 2))) = Real.sin E := by
  rw [Real.sin_two_mul, sin_atan2_unit, cos_atan2_unit, ← Real.sin_two_mul,
    show 2 * (E / 2) = E by ring]

/-- The three-angle rotation used by `positionFromE` is norm-preserving on
the orbital plane. -/
lemma rotation_preserves_normSq (xo yo cO sO cI sI cW sW : ℝ)
    (hO : sO ^ 2 + cO ^ 2 = 1) (hI : sI ^ 2 + cI ^ 2 = 1)
    (hW : sW ^ 2 + cW ^ 2 = 1) :
    (xo * (cO * cW - sO * sW * cI) - yo * (cO * sW + sO * cW * cI)) ^ 2 +
      (xo * (sO * cW + cO * sW * cI) - yo * (sO * sW - cO * cW * cI)) ^ 2 +
      (xo * (sW * sI) + yo * (cW * sI)) ^ 2 = xo ^ 2 + yo ^ 2 := by
  linear_combination (xo ^ 2 * (cW ^ 2 + sW ^ 2 * cI ^ 2) +
      yo ^ 2 * (sW ^ 2 + cW ^ 2 * cI ^ 2) -
      2 * xo * yo * cW * sW * (1 - cI ^ 2)) * hO +
    (xo ^ 2 * sW ^ 2 + yo ^ 2 * cW ^ 2 + 2 * xo * yo * cW * sW) * hI +
    (xo ^ 2 + yo ^ 2) * hW

/-- A point `(r·cos ν, r·sin ν)` in the orbital plane has squared norm
`r²`. -/
lemma orbit_plane_normSq (ν r : ℝ) :
    (r * Real.cos ν) ^ 2 + (r * Real.sin ν) ^ 2 = r ^ 2 := by
  nlinarith [Real.sin_sq_add_cos_sq ν]

/-- With eccentricity 0 the Kepler loop is the identity: every iterate of
`E ↦ M + 0·sin E` is `M`. -/
lemma solveKeplerE_zero_ecc (M : ℝ) : KeplerianOrbit.solveKeplerE M 0 = M := by
  unfold KeplerianOrbit.solveKeplerE
  simp only [zero_mul, add_zero]
  exact Function.iterate_fixed rfl 6

/-- With eccentricity 0 the position returned by `positionFromE` has
squared distance `a²` from the origin, for all angles. -/
lemma positionFromE_normSq_zero_ecc (a i O w E : ℝ) :
    (KeplerianOrbit.positionFromE a 0 i O w E).x ^ 2 +
      (KeplerianOrbit.positionFromE a 0 i O w E).y ^ 2 +
      (KeplerianOrbit.positionFromE a 0 i O w E).z ^ 2 = a ^ 2 := by
  unfold KeplerianOrbit.positionFromE
  dsimp only
  rw [rotation_preserves_normSq _ _ _ _ _ _ _ _ (Real.sin_sq_add_cos_sq O)
    (Real.sin_sq_add_cos_sq i) (Real.sin_sq_add_cos_sq w), orbit_plane_normSq]
  ring

/-- With eccentricity 0 the position pipeline is `2π`-periodic in the
eccentric anomaly. -/
lemma positionFromE_zero_ecc_add_two_pi (a i O w M : ℝ) :
    KeplerianOrbit.positionFromE a 0 i O w (M + 2 * Real.pi) =
      KeplerianOrbit.positionFromE a 0 i O w M := by
  unfold KeplerianOrbit.positionFromE
  dsimp only
  simp only [add_zero, sub_zero, Real.sqrt_one, one_mul, zero_mul, mul_one]
  simp only [cos_two_atan2_half, sin_two_atan2_half, Real.cos_add_two_pi,
    Real.sin_add_two_pi]

/-- Claim C5 (amended): for eccentricity 0, the returned point lies at
distance `|semiMajorAxis|` (the absolute value; equal to `semiMajorAxis`
whenever that value is nonnegative) from the origin, and the position at
`time + orbitalPeriod` equals the position at `time`. -/
theorem getOrbitalPosition_circular (elements : OrbitalElements) (time : ℝ)
    (he : elements.eccentricity.getD 0 = 0) :
    Real.sqrt ((KeplerianOrbit.getOrbitalPosition elements time).x ^ 2 +
        (KeplerianOrbit.getOrbitalPosition elements time).y ^ 2 +
        (KeplerianOrbit.getOrbitalPosition elements time).z ^ 2) =
      |elements.semiMajorAxis.getD 10| ∧
    KeplerianOrbit.getOrbitalPosition elements
        (time + elements.orbitalPeriod.getD 1) =
      KeplerianOrbit.getOrbitalPosition elements time := by
  constructor
  · have h1 : KeplerianOrbit.getOrbitalPosition elements time =
        KeplerianOrbit.positionFromE (elements.semiMajorAxis.getD 10) 0
          (elements.inclination.getD 0)
          (elements.longitudeOfAscendingNode.getD 0)
          (elements.argumentOfPeriapsis.getD 0)
          (elements.meanAnomalyAtEpoch.getD 0 +
            2 * Real.pi * time / elements.orbitalPeriod.getD 1) := by
      unfold KeplerianOrbit.getOrbitalPosition
      dsimp only
      rw [he, solveKeplerE_zero_ecc]
    rw [h1, positionFromE_normSq_zero_ecc]
    exact Real.sqrt_sq_eq_abs _
  · by_cases hT : elements.orbitalPeriod.getD 1 = 0
    · rw [hT, add_zero]
    · have hM : elements.meanAnomalyAtEpoch.getD 0 +
          2 * Real.pi * (time + elements.orbitalPeriod.getD 1) /
            elements.orbitalPeriod.getD 1 =
          (elements.meanAnomalyAtEpoch.getD 0 +
            2 * Real.pi * time / elements.orbitalPeriod.getD 1) +
            2 * Real.pi := by
        field_simp
        ring
      unfold KeplerianOrbit.getOrbitalPosition
      dsimp only
      rw [he]
      simp only [solveKeplerE_zero_ecc]
      rw [hM, positionFromE_zero_ecc_add_two_pi]

/-- Witness for the amended claim C5 at the all-default elements record
(effective `a = 10`, `e = 0`, `T = 1`) and `time = 0`. -/
theorem getOrbitalPosition_circular_witness :
    Real.sqrt ((KeplerianOrbit.getOrbitalPosition
          ⟨none, none, none, none, none, none, none⟩ 0).x ^ 2 +
        (KeplerianOrbit.getOrbitalPosition
          ⟨none, none, none, none, none, none, none⟩ 0).y ^ 2 +
        (KeplerianOrbit.getOrbitalPosition
          ⟨none, none, none, none, none, none, none⟩ 0).z ^ 2) = |(10 : ℝ)| ∧
    KeplerianOrbit.getOrbitalPosition
        ⟨none, none, none, none, none, none, none⟩ (0 + 1) =
      KeplerianOrbit.getOrbitalPosition
        ⟨none, none, none, none, none, none, none⟩ 0 :=
  getOrbitalPosition_circular ⟨none, none, none, none, none, none, none⟩ 0 rfl

/-- Counterexample to claim C5 as stated: for the elements record with
`semiMajorAxis = -10` and `eccentricity = 0`, at `time = 0` the distance of
the returned point from the origin is not the semi-major axis `-10` (a
Euclidean distance is nonnegative; it is `|-10| = 10` here). -/
theorem getOrbitalPosition_circular_counterexample :
    Real.sqrt ((KeplerianOrbit.getOrbitalPosition
          ⟨some (-10), some 0, none, none, none, none, none⟩ 0).x ^ 2 +
        (KeplerianOrbit.getOrbitalPosition
          ⟨some (-10), some 0, none, none, none, none, none⟩ 0).y ^ 2 +
        (KeplerianOrbit.getOrbitalPosition
          ⟨some (-10), some 0, none, none, none, none, none⟩ 0).z ^ 2) ≠
      (OrbitalElements.mk (some (-10)) (some 0) none none none none
        none).semiMajorAxis.getD 10 := by
  intro heq
  have h0 := Real.sqrt_nonneg
    ((KeplerianOrbit.getOrbitalPosition
        ⟨some (-10), some 0, none, none, none, none, none⟩ 0).x ^ 2 +
      (KeplerianOrbit.getOrbitalPosition
        ⟨some (-10), some 0, none, none, none, none, none⟩ 0).y ^ 2 +
      (KeplerianOrbit.getOrbitalPosition
        ⟨some (-10), some 0, none, none, none, none, none⟩ 0).z ^ 2)
  rw [heq] at h0
  norm_num at h0
